import Mathlib

/-!
Shallow embedding of the sh_krypt multi-tenant storage gateway.

The definitions below are translated from the Python sources under
src/app (routes/company.py, api.py, routes/auth.py, shbkp.py,
auth/auth_handler.py, utils.py, models.py, schemas.py).  Persisted
state (the companies / uploader_config / admin client / user tables and
the S3 object store) is modelled as explicit lists that the handlers
take and return; nullable database columns are modelled as `Option`;
Python exceptions that a handler converts into an HTTP response are
modelled as constructors of the handler's result type.
-/

/-- Python truthiness of a nullable integer column: `not x` is `True`
exactly when the value is `None` or `0`. -/
def pyFalsy : Option Int → Bool
  | none => true
  | some v => v == 0

/-- Python `str()` applied to a nullable string: `str(None)` is the
literal string `"None"` (used by routes that wrap columns in `str`). -/
def pyStr (o : Option String) : String := o.getD "None"

/-- Python's `str.startswith`, over the character lists of the two
strings. -/
def listIsPref : List Char → List Char → Bool
  | [], _ => true
  | _ :: _, [] => false
  | a :: as, b :: bs => a == b && listIsPref as bs

/-- Python's `key.startswith(p)`. -/
def pyStartsWith (s p : String) : Bool := listIsPref p.data s.data

/-- Python's `key.endswith(p)`. -/
def pyEndsWith (s p : String) : Bool := listIsPref p.data.reverse s.data.reverse

/-- Collapse runs of dashes into single dashes; the flag records
whether the previous kept character was a dash (starting it at `true`
also strips leading dashes). -/
def squeezeDashes : List Char → Bool → List Char
  | [], _ => []
  | c :: cs, prevDash =>
    if c = '-' then
      if prevDash then squeezeDashes cs true
      else '-' :: squeezeDashes cs true
    else c :: squeezeDashes cs false

/-- Model of `slugify` from python-slugify as used in
routes/company.py: a deterministic, URL-safe derivation of the display
name (lower-case the alphanumeric characters, turn every other
character into a dash, collapse dash runs, strip dashes at both
ends). -/
def slugify (s : String) : String :=
  let mapped := s.data.map (fun c => if c.isAlphanum then c.toLower else '-')
  let squeezed := squeezeDashes mapped true
  String.mk ((squeezed.reverse.dropWhile (fun c => c = '-')).reverse)

/-- Row of the `companies` table (src/app/models.py, class Company).
`created_at` is a server-side default and is omitted; nullable columns
are `Option`. -/
structure Company where
  id : String
  company_name : String
  company_slug : Option String
  company_api_key : String
  start_date : Option Nat
  end_date : Option Nat
  total_usage_quota : Option Int
  used_quota : Option Int
  aws_bucket_name : Option String
  aws_bucket_region : Option String
  aws_access_key : Option String
  aws_secret_key : Option String
  base_url : Option String
deriving DecidableEq

/-- Row of the `uploader_config` table (src/app/models.py, class
UploaderConfig). -/
structure UploaderConfig where
  id : String
  aws_bucket_name : String
  aws_bucket_region : String
  aws_access_key : String
  aws_secret_key : String
  total_quota : Option Int
  default_quota : Option Int
  is_active : Int
deriving DecidableEq

/-- Registration request body (src/app/schemas.py, CompanyRegister),
extended with the `company_key_prefix` attribute that
routes/company.py reads from it. -/
structure CompanyRegister where
  company_name : String
  company_key_prefix : String
  total_usage_quota : Int
  used_quota : Int
  aws_bucket_name : String
  aws_bucket_region : String
  aws_access_key : String
  aws_secret_key : String
deriving DecidableEq

/-- Outcome of a company-registration handler, tagged with the HTTP
status the handler responds with. -/
inductive RegisterResponse where
  /-- HTTP 409 with the given detail. -/
  | conflict (detail : String)
  /-- HTTP 404 with the given detail. -/
  | notFound (detail : String)
  /-- HTTP 500 with the given detail. -/
  | error500 (detail : String)
  /-- HTTP 201; carries the company_api_key returned to the caller. -/
  | created (company_api_key : String)
deriving DecidableEq

/-- src/app/routes/company.py, is_valid_company: true when some stored
company has exactly this name and the name-derived slug. -/
def is_valid_company (company_name : String) (companies : List Company) : Bool :=
  companies.any (fun c =>
    c.company_name == company_name && c.company_slug == some (slugify company_name))

/-- src/app/routes/company.py, register_company (POST
/api/companies/register).  `hashedSuffix` stands for
`hash_secret(str(uuid4()))`, `newId` for the generated row id, `now`
and `endDate` for `datetime.now()` and `now + one year`.  Note the
source returns the 409 `Company already exists` response when
`is_valid_company` is false, i.e. when no such company exists. -/
def routes_register_company (companies : List Company)
    (configs : List UploaderConfig) (req : CompanyRegister)
    (newId hashedSuffix : String) (now endDate : Nat) (baseUrl : String) :
    RegisterResponse × List Company :=
  if ¬ is_valid_company req.company_name companies then
    (.conflict "Company already exists", companies)
  else
    let apiKey := req.company_key_prefix ++ "_" ++ hashedSuffix
    match configs.find? (fun c => c.is_active == 1) with
    | none => (.notFound "Active AWS Config is not found", companies)
    | some cfg =>
      (.created apiKey,
        companies ++
          [{ id := newId
             company_name := req.company_name
             company_slug := some (slugify req.company_name)
             company_api_key := apiKey
             start_date := some now
             end_date := some endDate
             total_usage_quota := cfg.default_quota
             used_quota := some 0
             aws_bucket_name := some cfg.aws_bucket_name
             aws_bucket_region := some cfg.aws_bucket_region
             aws_access_key := some cfg.aws_access_key
             aws_secret_key := some cfg.aws_secret_key
             base_url := some baseUrl }])

/-- src/app/api.py, register_company (POST /register/company).
`genKey` stands for the generated `shbkp_<32 random chars>` key,
`newId` for the generated row id, `today` for `date.today()`.  The
source never sets `company_slug`, hence `none`. -/
def api_register_company (companies : List Company) (req : CompanyRegister)
    (genKey newId : String) (today : Nat) :
    RegisterResponse × List Company :=
  if companies.any (fun c => c.company_name == req.company_name) then
    (.conflict "Company name already exists", companies)
  else if companies.any (fun c => c.company_api_key == genKey) then
    (.error500 "Could not generate a unique API key. Please try again.", companies)
  else
    (.created genKey,
      companies ++
        [{ id := newId
           company_name := req.company_name
           company_slug := none
           company_api_key := genKey
           start_date := some today
           end_date := some (today + 365)
           total_usage_quota := some req.total_usage_quota
           used_quota := some req.used_quota
           aws_bucket_name := some req.aws_bucket_name
           aws_bucket_region := some req.aws_bucket_region
           aws_access_key := some req.aws_access_key
           aws_secret_key := some req.aws_secret_key
           base_url := none }])

/-- Quota-update request body (src/app/schemas.py, CompanyQuotaUpdate):
`file_txn_type` is 1 for upload, anything else is treated as the
delete/decrease direction. -/
structure CompanyQuotaUpdate where
  used_quota : Option Int
  file_txn_type : Int
deriving DecidableEq

/-- Outcome of the PATCH quota handlers. -/
inductive QuotaUpdateResult where
  /-- HTTP 200; carries the refreshed `used_quota` column. -/
  | ok (used_quota : Option Int)
  /-- HTTP 500 with detail `Company quota is invalid`. -/
  | invalidQuota
  /-- Unhandled `ValueError` raised by `int(str(None))`. -/
  | valueError
deriving DecidableEq

/-- src/app/api.py, update_company_quota (PATCH /companies/quota),
restricted to its effect on the `used_quota` column of the resolved
company (the handler has no quota-validity guard): increase adds the
delta, every other transaction type subtracts it, with no clamping. -/
def api_update_used_quota (used_quota : Int) (upd : CompanyQuotaUpdate) : Int :=
  match upd.used_quota with
  | none => used_quota
  | some d => if upd.file_txn_type == 1 then used_quota + d else used_quota - d

/-- src/app/routes/company.py, update_company_quota (PATCH
/api/companies/quota): responds 500 when both quota columns are falsy;
on increase it adds the delta to `int(str(used_quota))` (a `None`
column makes that conversion raise `ValueError`); on any other
transaction type it overwrites `used_quota` with the request value. -/
def routes_update_used_quota (total used : Option Int)
    (upd : CompanyQuotaUpdate) : QuotaUpdateResult :=
  if pyFalsy total && pyFalsy used then .invalidQuota
  else
    match upd.used_quota with
    | none => .ok used
    | some d =>
      if upd.file_txn_type == 1 then
        match used with
        | some u => .ok (some (u + d))
        | none => .valueError
      else .ok (some d)

/-- Outcome of GET /api/companies/quota/is-available. -/
inductive QuotaAvailResult where
  /-- HTTP 200 body: `is_available` and the echoed `usage_quota`. -/
  | ok (is_available : Bool) (usage_quota : Option Int)
  /-- HTTP 500 with detail `Company quota is invalid`. -/
  | invalidQuota
deriving DecidableEq

/-- src/app/routes/company.py, is_company_quota_available (GET
/api/companies/quota/is-available): the guard is Python truthiness
(`not company.total_usage_quota or not company.used_quota`), so a
`None` column and a `0` column are both rejected with the 500
response; otherwise it answers `total_usage_quota > used_quota`. -/
def is_company_quota_available (total used : Option Int) : QuotaAvailResult :=
  match total, used with
  | some t, some u =>
    if t == 0 || u == 0 then .invalidQuota
    else .ok (decide (t > u)) (some u)
  | _, _ => .invalidQuota

/-- An object stored in the S3 bucket: its key and its size in bytes.
The bucket contents are modelled as a `List S3Object`. -/
structure S3Object where
  key : String
  size : Nat
deriving DecidableEq

/-- Normalisation both S3 folder helpers in src/app/routes/company.py
perform: make the folder key end with a separator. -/
def ensureSlash (p : String) : String :=
  if pyEndsWith p "/" then p else p ++ "/"

/-- src/app/routes/company.py, is_s3_folder_empty: after normalising
the folder key, `list_objects_v2` returns no `Contents` exactly when no
stored object key starts with it. -/
def is_s3_folder_empty (bucket : List S3Object) (folderPref : String) : Bool :=
  !(bucket.any (fun o => pyStartsWith o.key (ensureSlash folderPref)))

/-- src/app/routes/company.py, delete_s3_folder_contents: remove every
object whose key starts with the normalised folder key. -/
def delete_s3_folder_contents (bucket : List S3Object) (folderPref : String) :
    List S3Object :=
  bucket.filter (fun o => !(pyStartsWith o.key (ensureSlash folderPref)))

/-- Delete request body as read by src/app/routes/company.py,
delete_files (the handler reads `request.loc_tag`). -/
structure FileDeleteRequest where
  loc_tag : String
deriving DecidableEq

/-- Outcome of POST /api/companies/delete/files. -/
inductive DeleteFilesResult where
  /-- HTTP 200, body `Files deleted successfully`. -/
  | ok
  /-- HTTP 406 with detail `Folder is empty`. -/
  | notAcceptable (detail : String)
deriving DecidableEq

/-- src/app/routes/company.py, delete_files (POST
/api/companies/delete/files): probes
`<company_slug>/<loc_tag>` for emptiness; if empty it answers 406 and
touches nothing, otherwise it deletes everything under the normalised
folder key and answers 200.  Returns the response together with the
resulting bucket contents. -/
def delete_files (company : Company) (bucket : List S3Object)
    (req : FileDeleteRequest) : DeleteFilesResult × List S3Object :=
  let folderPref := pyStr company.company_slug ++ "/" ++ req.loc_tag
  if is_s3_folder_empty bucket folderPref then
    (.notAcceptable "Folder is empty", bucket)
  else
    (.ok, delete_s3_folder_contents bucket folderPref)

/-- Upload-grant request body as read by src/app/routes/company.py,
generate_presigned_upload_url: the declared schema fields `file_name`
and `content_type` (src/app/schemas.py, PresignedURLRequest) plus the
`loc_tag` and `content_size` attributes the handler reads. -/
structure PresignedURLRequest where
  file_name : String
  content_type : String
  loc_tag : String
  content_size : Int
deriving DecidableEq

/-- Collect the characters preceding the first dot of a reversed file
name, `none` when no dot occurs (helper for extension guessing). -/
def takeUntilDot : List Char -> Option (List Char)
  | [] => none
  | c :: cs =>
    if c = '.' then some []
    else
      match takeUntilDot cs with
      | none => none
      | some r => some (c :: r)

/-- Model of `mimetypes.guess_type` restricted to what the handler
uses: map the file name's extension (the lower-cased characters after
the final dot) to a MIME type, `none` for a missing or unknown
extension.  The table covers the common registered types. -/
def guessType (fileName : String) : Option String :=
  match takeUntilDot fileName.data.reverse with
  | none => none
  | some revExt =>
    let ext := String.mk (revExt.reverse.map Char.toLower)
    if ext == "txt" then some "text/plain"
    else if ext == "csv" then some "text/csv"
    else if ext == "pdf" then some "application/pdf"
    else if ext == "png" then some "image/png"
    else if ext == "jpg" then some "image/jpeg"
    else if ext == "json" then some "application/json"
    else if ext == "zip" then some "application/zip"
    else none

/-- The fully-qualified object key an upload grant targets:
`<company_slug>/<loc_tag>/<file_name>`. -/
def fqUploadKey (company : Company) (req : PresignedURLRequest) : String :=
  pyStr company.company_slug ++ "/" ++ req.loc_tag ++ "/" ++ req.file_name

/-- The presigned-POST capability returned by
`generate_presigned_post`: bucket, fully-qualified key, the
`Content-Type` form field, the exact-match content-type condition, the
inclusive `content-length-range` bounds, and the expiry in seconds. -/
structure UploadCapability where
  bucket : String
  key : String
  fieldContentType : Option String
  condContentType : Option String
  condSizeMin : Int
  condSizeMax : Int
  expiresIn : Nat
deriving DecidableEq

/-- Outcome of POST /api/companies/generate/presigned/url/upload. -/
inductive UploadUrlResult where
  /-- HTTP 400 with the given detail (object already present). -/
  | badRequest (detail : String)
  /-- HTTP 200 carrying the capability. -/
  | granted (cap : UploadCapability)
deriving DecidableEq

/-- HTTP status of an upload-grant outcome. -/
def UploadUrlResult.status : UploadUrlResult → Nat
  | .badRequest _ => 400
  | .granted _ => 200

/-- src/app/routes/company.py, generate_presigned_upload_url (POST
/api/companies/generate/presigned/url/upload): `head_object` on
`<company_slug>/<loc_tag>/<file_name>` succeeding (the key is in the
bucket) yields the 400 `File found` response; otherwise the handler
issues a presigned POST whose content type is guessed from the file
name and whose size condition is `content-length-range 1024
content_size`, expiring in 3600 seconds. -/
def generate_presigned_upload_url (company : Company)
    (bucket : List S3Object) (req : PresignedURLRequest) : UploadUrlResult :=
  let fqKey := fqUploadKey company req
  let filetype := guessType req.file_name
  if bucket.any (fun o => o.key == fqKey) then
    .badRequest ("File found - " ++ req.file_name)
  else
    .granted
      { bucket := pyStr company.aws_bucket_name
        key := fqKey
        fieldContentType := filetype
        condContentType := filetype
        condSizeMin := 1024
        condSizeMax := req.content_size
        expiresIn := 3600 }

/-- A digest in the self-describing PHC format that passlib's argon2
handler stores: the salt drawn at hashing time together with the
derived key.  The argon2 key derivation itself is modelled by
`argon2core`. -/
structure PhcDigest where
  salt : String
  core : List Char
deriving DecidableEq

/-- Model of the argon2 key derivation used by
`CryptContext(schemes=['argon2'])` (src/app/shbkp.py and
src/app/utils.py): a deterministic function of salt and secret,
idealised as collision-free (for a fixed salt, distinct secrets derive
distinct keys), which is the working assumption the PHC scheme makes of
the real primitive. -/
def argon2core (salt secret : String) : List Char :=
  salt.data ++ secret.data

/-- `pwd_context.hash`: draw a salt (passed here as an explicit
parameter, since the source draws it randomly per call) and store it
beside the derived key. -/
def pwd_context_hash (salt secret : String) : PhcDigest :=
  { salt := salt, core := argon2core salt secret }

/-- `pwd_context.verify`: re-derive with the salt recorded in the
digest and compare; failure is the boolean `false`. -/
def pwd_context_verify (secret : String) (digest : PhcDigest) : Bool :=
  argon2core digest.salt secret == digest.core

/-- src/app/shbkp.py, hash_secret. -/
def hash_secret (salt secret : String) : PhcDigest := pwd_context_hash salt secret

/-- src/app/shbkp.py, verify_secret. -/
def verify_secret (secret : String) (digest : PhcDigest) : Bool :=
  pwd_context_verify secret digest

/-- src/app/utils.py, hash_password (same `CryptContext`). -/
def hash_password (salt password : String) : PhcDigest := pwd_context_hash salt password

/-- src/app/utils.py, verify_password. -/
def verify_password (password : String) (digest : PhcDigest) : Bool :=
  pwd_context_verify password digest

/-- Claim set of a user token (src/app/auth/auth_handler.py):
`user_id` plus the custom `expires` claim, absent when the dict lacks
the key. -/
structure UserClaims where
  user_id : String
  expires : Option Int
deriving DecidableEq

/-- A presented user-token string, as the asymmetric public key sees
it: either it fails jose's structural/signature checks, or it decodes
to a claim set. -/
inductive UserToken where
  /-- Malformed, wrong algorithm, or signature does not verify
  (jose raises `JWTError`). -/
  | invalid
  /-- Well-formed and correctly signed, decoding to these claims. -/
  | signed (claims : UserClaims)
deriving DecidableEq

/-- src/app/auth/auth_handler.py, decode_jwt: `none` when the public
key file is unreadable, when jose rejects the token, when the
`expires` claim is absent, or when `expires` is in the past; otherwise
the decoded claim set.  (The custom `expires` claim is not the
registered `exp` claim, so jose itself performs no expiry check
here.) -/
def decode_jwt (publicKeyReadable : Bool) (tok : UserToken) (now : Int) :
    Option UserClaims :=
  if !publicKeyReadable then none
  else
    match tok with
    | .invalid => none
    | .signed c =>
      match c.expires with
      | none => none
      | some e => if e ≥ now then some c else none

/-- Row of the admin-client table.  The ORM class `AdminClient` that
src/app/shbkp.py imports is absent from src/app/models.py; its columns
are modelled from that module's reads (`client_id`, `hashed_secret`),
matching the spec's AdminClient entity. -/
structure AdminClient where
  client_id : String
  hashed_secret : PhcDigest
deriving DecidableEq

/-- Payload of a service (machine-client) token as read by
src/app/shbkp.py, get_current_client: the registered `exp` claim and
the custom `role` and `sub` claims, each possibly absent. -/
structure ServicePayload where
  exp : Option Int
  role : Option String
  sub : Option String
deriving DecidableEq

/-- A presented service-token string, as the verification key sees
it. -/
inductive ServiceToken where
  /-- Malformed, wrong algorithm, or signature does not verify. -/
  | invalid
  /-- Well-formed and correctly signed, decoding to this payload. -/
  | signed (payload : ServicePayload)
deriving DecidableEq

/-- `jose.jwt.decode` as called in get_current_client: raises
`JWTError` for a structurally invalid or badly signed token and — the
registered `exp` claim being verified by default — raises
`ExpiredSignatureError` (a `JWTError`) when `exp` is present and in
the past; a payload without `exp` is returned as-is. -/
def joseDecodeService (tok : ServiceToken) (now : Int) : Option ServicePayload :=
  match tok with
  | .invalid => none
  | .signed p =>
    match p.exp with
    | some e => if e < now then none else some p
    | none => some p

/-- Outcome of src/app/shbkp.py, get_current_client. -/
inductive ClientAuthResult where
  /-- The extracted `sub` claim is returned as the client id. -/
  | ok (client_id : Option String)
  /-- HTTP 401 with the given detail. -/
  | unauthorized (detail : String)
  /-- HTTP 403 with the given detail. -/
  | forbidden (detail : String)
  /-- Unhandled `ValueError`: the expiry guard evaluates
  `float(str(exp))` with `exp = None`. -/
  | valueError
deriving DecidableEq

/-- src/app/shbkp.py, get_current_client: decode (`JWTError` becomes
the 401 `Invalid token` response); the guard
`exp is None and datetime.fromtimestamp(float(str(exp))) < now` then
crashes with `ValueError` whenever `exp` is absent and is skipped
otherwise (its 401 `Token expired` branch is unreachable); a role
other than `client` answers 403; an unknown `sub` answers 401; else
the `sub` claim is returned. -/
def get_current_client (clients : List AdminClient) (tok : ServiceToken)
    (now : Int) : ClientAuthResult :=
  match joseDecodeService tok now with
  | none => .unauthorized "Invalid token"
  | some p =>
    if p.exp == none then .valueError
    else if p.role != some "client" then .forbidden "Invalid role"
    else
      match clients.find? (fun c => some c.client_id == p.sub) with
      | none => .unauthorized "Unknown client"
      | some _ => .ok p.sub

/-- Row of the admin-user table.  The ORM class `User` that
src/app/routes/auth.py imports is absent from src/app/models.py; its
columns are modelled from that handler's reads, and the
username/email uniqueness constraint behind its `IntegrityError`
branch from that branch's own message
(`Username or email already registered.`). -/
structure User where
  id : String
  username : String
  email : String
  password_hash : PhcDigest
  is_active : Bool
deriving DecidableEq

/-- Registration request body (src/app/schemas.py, UserCreate). -/
structure UserCreate where
  username : String
  email : String
  password : String
deriving DecidableEq

/-- Outcome of POST /admin/auth/api/register. -/
inductive RegisterAdminResult where
  /-- HTTP 201 returning the stored user. -/
  | created (u : User)
  /-- HTTP 409 (`IntegrityError` rolled back). -/
  | conflict (detail : String)
deriving DecidableEq

/-- src/app/routes/auth.py, register_admin (POST
/admin/auth/api/register): hashes the password (salt passed
explicitly, `newId` standing for the generated uuid) and inserts the
user with `is_active=False`; a username or email collision makes the
commit raise `IntegrityError`, answered with 409 and no insertion. -/
def register_admin (users : List User) (req : UserCreate)
    (newId salt : String) : RegisterAdminResult × List User :=
  let newUser : User :=
    { id := newId
      username := req.username
      email := req.email
      password_hash := hash_password salt req.password
      is_active := false }
  if users.any (fun u => u.username == req.username || u.email == req.email) then
    (.conflict "Username or email already registered.", users)
  else
    (.created newUser, users ++ [newUser])

/-- Outcome of POST /admin/auth/api/token. -/
inductive LoginResult where
  /-- HTTP 401 `Incorrect username or password`. -/
  | unauthorized
  /-- HTTP 200 with a LoginResponse body. -/
  | token (access_token : String) (expires_at : Int)
  /-- HTTP 200 with an ErrorResponse body (sign_jwt returned
  nothing). -/
  | errorBody
deriving DecidableEq

/-- src/app/routes/auth.py, login_for_access_token (POST
/admin/auth/api/token): the query matches the first user whose email
equals the submitted username and whose `is_active` column is truthy;
no match or a failed password verification answers 401.  `signedToken`
stands for `sign_jwt(user.username)` (`none` when the private key file
is unreadable); `expireMinutes` for ACCESS_TOKEN_EXPIRE_MINUTES. -/
def login_for_access_token (users : List User)
    (formUsername formPassword : String) (signedToken : Option String)
    (expireMinutes : Int) : LoginResult :=
  match users.find? (fun u => u.email == formUsername && u.is_active) with
  | none => .unauthorized
  | some user =>
    if !(verify_password formPassword user.password_hash) then .unauthorized
    else
      match signedToken with
      | some t => .token t (expireMinutes * 60)
      | none => .errorBody

/-- A registration request used in concrete evaluations. -/
def demoRegisterReq : CompanyRegister :=
  { company_name := "Acme"
    company_key_prefix := "shkt"
    total_usage_quota := 262144000
    used_quota := 0
    aws_bucket_name := "bkt"
    aws_bucket_region := "reg"
    aws_access_key := "ak"
    aws_secret_key := "sk" }

/-- An active uploader_config row used in concrete evaluations. -/
def demoUploaderConfig : UploaderConfig :=
  { id := "cfg1"
    aws_bucket_name := "bkt"
    aws_bucket_region := "reg"
    aws_access_key := "ak"
    aws_secret_key := "sk"
    total_quota := some 5368709120
    default_quota := some 262144000
    is_active := 1 }

/-- A stored company named `Acme` (slug `acme`) used in concrete
evaluations. -/
def demoAcme : Company :=
  { id := "c1"
    company_name := "Acme"
    company_slug := some "acme"
    company_api_key := "shkt_k0"
    start_date := some 0
    end_date := some 365
    total_usage_quota := some 262144000
    used_quota := some 0
    aws_bucket_name := some "bkt"
    aws_bucket_region := some "reg"
    aws_access_key := some "ak"
    aws_secret_key := some "sk"
    base_url := some "http://h/" }

/-- C1: the duplicate-name guard of POST /api/companies/register is
inverted.  On a store with no company named `Acme` the handler answers
409 `Company already exists` and creates nothing, and on a store that
already holds `Acme` it proceeds and inserts a second row with the
same name; the api.py variant of registration implements the claimed
behaviour and rejects the duplicate with 409. -/
theorem register_company_duplicate_guard_inverted :
    routes_register_company [] [demoUploaderConfig] demoRegisterReq
        "id1" "suf" 0 365 "http://h/"
      = (RegisterResponse.conflict "Company already exists", [])
  ∧ (routes_register_company [demoAcme] [demoUploaderConfig] demoRegisterReq
        "id1" "suf" 0 365 "http://h/").1 = RegisterResponse.created "shkt_suf"
  ∧ ((routes_register_company [demoAcme] [demoUploaderConfig] demoRegisterReq
        "id1" "suf" 0 365 "http://h/").2.map Company.company_name)
      = ["Acme", "Acme"]
  ∧ api_register_company [demoAcme] demoRegisterReq "shbkp_g" "id2" 0
      = (RegisterResponse.conflict "Company name already exists", [demoAcme]) := by
  decide

/-- C2: the decrease direction of the quota-adjust handlers is not
subtract-and-clamp.  With `used_quota = 100` and a decrease
(`file_txn_type = 2`) of 150, the api.py handler stores `-50` (a
negative counter) and the routes handler overwrites the counter with
the request value `150`, while both handlers do add the delta in the
increase direction. -/
theorem update_quota_decrease_not_clamped :
    api_update_used_quota 100 { used_quota := some 150, file_txn_type := 2 } = -50
  ∧ api_update_used_quota 100 { used_quota := some 150, file_txn_type := 2 } < 0
  ∧ routes_update_used_quota (some 262144000) (some 100)
      { used_quota := some 150, file_txn_type := 2 } = .ok (some 150)
  ∧ api_update_used_quota 100 { used_quota := some 150, file_txn_type := 1 } = 250
  ∧ routes_update_used_quota (some 262144000) (some 100)
      { used_quota := some 150, file_txn_type := 1 } = .ok (some 250) := by
  decide

/-- C3: the quota-availability endpoint rejects a fully set quota
whose `used_quota` is 0 — the Python truthiness guard conflates a `0`
column with an unset one — while used quotas of 1 and 7 get the
claimed boolean answers, and unset columns are rejected as
claimed. -/
theorem quota_available_rejects_zero_used :
    is_company_quota_available (some 262144000) (some 0) = .invalidQuota
  ∧ is_company_quota_available (some 262144000) (some 1)
      = .ok true (some 1)
  ∧ is_company_quota_available (some 5) (some 7) = .ok false (some 7)
  ∧ is_company_quota_available (some 5) (some 5) = .ok false (some 5)
  ∧ is_company_quota_available none (some 3) = .invalidQuota
  ∧ is_company_quota_available (some 5) none = .invalidQuota := by
  decide

/-- C9: the issued capability never depends on the caller-supplied
`content_type` field — two upload-grant requests that differ only
there get identical results, on every company and bucket state. -/
theorem upload_grant_ignores_caller_content_type (company : Company)
    (bucket : List S3Object) (req : PresignedURLRequest) (ct : String) :
    generate_presigned_upload_url company bucket
        { req with content_type := ct }
      = generate_presigned_upload_url company bucket req := rfl

/-- The argon2 key derivation is injective in the secret once the salt
is fixed, which is what the digest comparison in verification relies
on. -/
theorem argon2core_inj (salt : String) {s1 s2 : String}
    (h : argon2core salt s1 = argon2core salt s2) : s1 = s2 := by
  unfold argon2core at h
  have h2 := List.append_cancel_left h
  cases s1
  cases s2
  exact congrArg String.mk h2

/-- C7: for every salt drawn at hashing time, verifying a secret
against its own digest succeeds, verifying a different secret against
that digest returns the boolean `false` (for both the shbkp.py
secret pair and the utils.py password pair of wrappers). -/
theorem verify_of_hash_correct (salt s s1 s2 : String) :
    verify_secret s (hash_secret salt s) = true
  ∧ (s1 ≠ s2 → verify_secret s1 (hash_secret salt s2) = false)
  ∧ verify_password s (hash_password salt s) = true
  ∧ (s1 ≠ s2 → verify_password s1 (hash_password salt s2) = false) := by
  refine ⟨?_, ?_, ?_, ?_⟩
  · simp [verify_secret, hash_secret, pwd_context_verify, pwd_context_hash]
  · intro hne
    simp only [verify_secret, hash_secret, pwd_context_verify, pwd_context_hash]
    rw [beq_eq_false_iff_ne]
    exact fun h => hne (argon2core_inj salt h)
  · simp [verify_password, hash_password, pwd_context_verify, pwd_context_hash]
  · intro hne
    simp only [verify_password, hash_password, pwd_context_verify, pwd_context_hash]
    rw [beq_eq_false_iff_ne]
    exact fun h => hne (argon2core_inj salt h)

/-- Concrete run of `verify_of_hash_correct`: the digest of `pw`
verifies `pw` and refuses `other`. -/
theorem verify_of_hash_correct_witness :
    verify_secret "pw" (hash_secret "salt1" "pw") = true
  ∧ verify_secret "other" (hash_secret "salt1" "pw") = false :=
  ⟨(verify_of_hash_correct "salt1" "pw" "other" "pw").1,
   (verify_of_hash_correct "salt1" "pw" "other" "pw").2.1 (by decide)⟩

/-- C5: decode_jwt is `none` on a structurally invalid or badly signed
token, `none` when the decoded claims lack `expires`, `none` when
`expires` is before the current time, and otherwise returns the
decoded claim set. -/
theorem decode_jwt_validation (k : Bool) (c : UserClaims) (now : Int) :
    decode_jwt k UserToken.invalid now = none
  ∧ (c.expires = none → decode_jwt k (UserToken.signed c) now = none)
  ∧ (∀ e, c.expires = some e → e < now →
        decode_jwt k (UserToken.signed c) now = none)
  ∧ (∀ e, c.expires = some e → now ≤ e →
        decode_jwt true (UserToken.signed c) now = some c) := by
  refine ⟨?_, ?_, ?_, ?_⟩
  · cases k <;> simp [decode_jwt]
  · intro h
    cases k <;> simp [decode_jwt, h]
  · intro e he hlt
    cases k <;> simp [decode_jwt, he]
    omega
  · intro e he hle
    simp [decode_jwt, he, hle]

/-- Concrete run of `decode_jwt_validation`: an unexpired claim set is
returned, an expired one is refused. -/
theorem decode_jwt_validation_witness :
    decode_jwt true (UserToken.signed { user_id := "u1", expires := some 10 }) 7
      = some { user_id := "u1", expires := some 10 }
  ∧ decode_jwt true (UserToken.signed { user_id := "u1", expires := some 3 }) 7
      = none :=
  ⟨(decode_jwt_validation true { user_id := "u1", expires := some 10 } 7).2.2.2
      10 rfl (by decide),
   (decode_jwt_validation true { user_id := "u1", expires := some 3 } 7).2.2.1
      3 rfl (by decide)⟩


/-- get_current_client on a decodable token without an `exp` claim:
the expiry guard evaluates `float(str(None))` and crashes. -/
theorem get_current_client_no_exp (clients : List AdminClient)
    (p : ServicePayload) (now : Int) (hexp : p.exp = none) :
    get_current_client clients (ServiceToken.signed p) now
      = ClientAuthResult.valueError := by
  simp [get_current_client, joseDecodeService, hexp]

/-- get_current_client on an expired token: jose raises inside
decode, answered with the 401 `Invalid token` response. -/
theorem get_current_client_expired (clients : List AdminClient)
    (p : ServicePayload) (now e : Int) (hexp : p.exp = some e)
    (hlt : e < now) :
    get_current_client clients (ServiceToken.signed p) now
      = ClientAuthResult.unauthorized "Invalid token" := by
  simp [get_current_client, joseDecodeService, hexp, hlt]

/-- get_current_client on an unexpired token whose role is not
`client`: 403. -/
theorem get_current_client_bad_role (clients : List AdminClient)
    (p : ServicePayload) (now e : Int) (hexp : p.exp = some e)
    (hle : ¬ e < now) (hrole : p.role ≠ some "client") :
    get_current_client clients (ServiceToken.signed p) now
      = ClientAuthResult.forbidden "Invalid role" := by
  simp [get_current_client, joseDecodeService, hexp, hle, hrole]

/-- get_current_client on an unexpired `client` token whose `sub`
matches no stored AdminClient: 401. -/
theorem get_current_client_unknown_sub (clients : List AdminClient)
    (p : ServicePayload) (now e : Int) (hexp : p.exp = some e)
    (hle : ¬ e < now) (hrole : p.role = some "client")
    (hfind : clients.find? (fun c => some c.client_id == p.sub) = none) :
    get_current_client clients (ServiceToken.signed p) now
      = ClientAuthResult.unauthorized "Unknown client" := by
  simp [get_current_client, joseDecodeService, hexp, hle, hrole, hfind]

/-- get_current_client on an unexpired `client` token whose `sub`
matches a stored AdminClient: the sub claim is returned. -/
theorem get_current_client_found (clients : List AdminClient)
    (p : ServicePayload) (now e : Int) (c : AdminClient)
    (hexp : p.exp = some e) (hle : ¬ e < now)
    (hrole : p.role = some "client")
    (hfind : clients.find? (fun c => some c.client_id == p.sub) = some c) :
    get_current_client clients (ServiceToken.signed p) now
      = ClientAuthResult.ok p.sub := by
  simp [get_current_client, joseDecodeService, hexp, hle, hrole, hfind]

/-- C6: a service token whose role claim is not `client` never yields
a client id, one whose `sub` matches no stored AdminClient never
yields a client id, an expired one is rejected with the 401
`Invalid token` response, and a client id is yielded exactly for a
correctly signed, unexpired token with role `client` whose `sub`
matches a stored AdminClient. -/
theorem get_current_client_validation (clients : List AdminClient)
    (tok : ServiceToken) (now : Int) :
    (∀ p, tok = ServiceToken.signed p → p.role ≠ some "client" →
        ∀ cid, get_current_client clients tok now ≠ ClientAuthResult.ok cid)
  ∧ (∀ p, tok = ServiceToken.signed p →
        (∀ c ∈ clients, some c.client_id ≠ p.sub) →
        ∀ cid, get_current_client clients tok now ≠ ClientAuthResult.ok cid)
  ∧ (∀ p e, tok = ServiceToken.signed p → p.exp = some e → e < now →
        get_current_client clients tok now
          = ClientAuthResult.unauthorized "Invalid token")
  ∧ (∀ cid, get_current_client clients tok now = ClientAuthResult.ok cid ↔
      ∃ p, tok = ServiceToken.signed p ∧ p.sub = cid ∧ p.role = some "client"
        ∧ (∃ e, p.exp = some e ∧ now ≤ e)
        ∧ ∃ c ∈ clients, some c.client_id = cid) := by
  have hinv : get_current_client clients ServiceToken.invalid now
      = ClientAuthResult.unauthorized "Invalid token" := by
    simp [get_current_client, joseDecodeService]
  have hiff : ∀ cid,
      get_current_client clients tok now = ClientAuthResult.ok cid ↔
        ∃ p, tok = ServiceToken.signed p ∧ p.sub = cid ∧ p.role = some "client"
          ∧ (∃ e, p.exp = some e ∧ now ≤ e)
          ∧ ∃ c ∈ clients, some c.client_id = cid := by
    intro cid
    constructor
    · intro h
      cases tok with
      | invalid =>
        rw [hinv] at h
        exact absurd h (by simp)
      | signed p =>
        cases hexp : p.exp with
        | none =>
          rw [get_current_client_no_exp clients p now hexp] at h
          exact absurd h (by simp)
        | some e =>
          by_cases hlt : e < now
          · rw [get_current_client_expired clients p now e hexp hlt] at h
            exact absurd h (by simp)
          · by_cases hrole : p.role = some "client"
            · cases hfind : clients.find? (fun c => some c.client_id == p.sub) with
              | none =>
                rw [get_current_client_unknown_sub clients p now e hexp hlt
                  hrole hfind] at h
                exact absurd h (by simp)
              | some c =>
                rw [get_current_client_found clients p now e c hexp hlt
                  hrole hfind] at h
                have hsub : p.sub = cid := by simpa using h
                refine ⟨p, rfl, hsub, hrole, ⟨e, hexp, by omega⟩, c,
                  List.mem_of_find?_eq_some hfind, ?_⟩
                rw [← hsub]
                have hbeq : (some c.client_id == p.sub) = true := by
                  simpa using List.find?_some hfind
                exact eq_of_beq hbeq
            · rw [get_current_client_bad_role clients p now e hexp hlt hrole] at h
              exact absurd h (by simp)
    · rintro ⟨p, rfl, hsub, hrole, ⟨e, hexp, hle⟩, c0, hc0, hcid⟩
      have hle' : ¬ e < now := by omega
      cases hfind : clients.find? (fun c => some c.client_id == p.sub) with
      | none =>
        rw [List.find?_eq_none] at hfind
        exact absurd (by simp [hcid, hsub] :
          (some c0.client_id == p.sub) = true) (by simpa using hfind c0 hc0)
      | some c' =>
        rw [get_current_client_found clients p now e c' hexp hle' hrole hfind,
          hsub]
  refine ⟨?_, ?_, ?_, hiff⟩
  · intro p hp hrole cid h
    obtain ⟨p', hp', -, hrole', -⟩ := (hiff cid).mp h
    rw [hp] at hp'
    cases hp'
    exact hrole hrole'
  · intro p hp hnone cid h
    obtain ⟨p', hp', hsub, -, -, c0, hc0, hcid⟩ := (hiff cid).mp h
    rw [hp] at hp'
    cases hp'
    exact hnone c0 hc0 (by rw [hcid, hsub])
  · intro p e hp hexp hlt
    subst hp
    exact get_current_client_expired clients p now e hexp hlt

/-- An AdminClient row used in concrete evaluations. -/
def demoAdminClient : AdminClient :=
  { client_id := "cli1", hashed_secret := hash_secret "s1" "topsecret" }

/-- Concrete run of `get_current_client_validation`: a signed token
with role `client`, a future `exp` and a stored `sub` yields the
client id. -/
theorem get_current_client_validation_witness :
    get_current_client [demoAdminClient]
        (ServiceToken.signed
          { exp := some 100, role := some "client", sub := some "cli1" }) 50
      = ClientAuthResult.ok (some "cli1") :=
  ((get_current_client_validation [demoAdminClient]
      (ServiceToken.signed
        { exp := some 100, role := some "client", sub := some "cli1" })
      50).2.2.2 (some "cli1")).mpr
    ⟨{ exp := some 100, role := some "client", sub := some "cli1" }, rfl, rfl,
      rfl, ⟨100, rfl, by decide⟩, demoAdminClient, by simp, rfl⟩

/-- An upload-grant request used in concrete evaluations. -/
def demoUploadReq : PresignedURLRequest :=
  { file_name := "a.txt"
    content_type := "text/plain"
    loc_tag := "docs"
    content_size := 4096 }

/-- C4 counterexample: when an object already sits at the
fully-qualified key, the handler's failure response carries HTTP
status 400 (Bad Request), not 409 (Conflict). -/
theorem upload_grant_existing_object_is_400 :
    generate_presigned_upload_url demoAcme
        [{ key := "acme/docs/a.txt", size := 2048 }] demoUploadReq
      = UploadUrlResult.badRequest "File found - a.txt"
  ∧ (generate_presigned_upload_url demoAcme
        [{ key := "acme/docs/a.txt", size := 2048 }] demoUploadReq).status = 400
  ∧ (400 : Nat) ≠ 409 := by
  decide

/-- C4 (amended): an upload grant for an occupied key fails with the
400 `File found` response and issues no capability; for a fresh key it
returns a capability whose content-type is guessed from the file name
and required to match exactly, whose size condition is the inclusive
range from 1024 to the caller-supplied `content_size`, expiring in
3600 seconds. -/
theorem upload_grant_behaviour (company : Company) (bucket : List S3Object)
    (req : PresignedURLRequest) :
    ((∃ o ∈ bucket, o.key = fqUploadKey company req) →
        generate_presigned_upload_url company bucket req
            = UploadUrlResult.badRequest ("File found - " ++ req.file_name)
        ∧ (generate_presigned_upload_url company bucket req).status = 400)
  ∧ ((∀ o ∈ bucket, o.key ≠ fqUploadKey company req) →
        generate_presigned_upload_url company bucket req
          = UploadUrlResult.granted
              { bucket := pyStr company.aws_bucket_name
                key := fqUploadKey company req
                fieldContentType := guessType req.file_name
                condContentType := guessType req.file_name
                condSizeMin := 1024
                condSizeMax := req.content_size
                expiresIn := 3600 }) := by
  constructor
  · rintro ⟨o, ho, hkey⟩
    have hany : bucket.any (fun o => o.key == fqUploadKey company req) = true :=
      List.any_eq_true.mpr ⟨o, ho, by simp [hkey]⟩
    constructor
    · simp [generate_presigned_upload_url, hany]
    · simp [generate_presigned_upload_url, hany, UploadUrlResult.status]
  · intro hall
    have hany : bucket.any (fun o => o.key == fqUploadKey company req) = false :=
      List.any_eq_false.mpr (fun o ho => by simpa using hall o ho)
    simp [generate_presigned_upload_url, hany]

/-- Concrete run of `upload_grant_behaviour`: a grant for a fresh key
carries the guessed content type, the 1024-to-content_size size range
and the 3600-second expiry. -/
theorem upload_grant_behaviour_witness :
    generate_presigned_upload_url demoAcme [] demoUploadReq
      = UploadUrlResult.granted
          { bucket := "bkt"
            key := "acme/docs/a.txt"
            fieldContentType := some "text/plain"
            condContentType := some "text/plain"
            condSizeMin := 1024
            condSizeMax := 4096
            expiresIn := 3600 } :=
  (upload_grant_behaviour demoAcme [] demoUploadReq).2 (by simp)

/-- C8: when zero objects sit under the normalised target folder key,
the delete-all handler answers 406 `Folder is empty` and the bucket is
untouched; when at least one object sits there, it answers 200, so a
caller can distinguish the two. -/
theorem delete_files_empty_guard (company : Company) (bucket : List S3Object)
    (req : FileDeleteRequest) :
    ((∀ o ∈ bucket, pyStartsWith o.key
          (ensureSlash (pyStr company.company_slug ++ "/" ++ req.loc_tag))
            = false) →
        delete_files company bucket req
          = (DeleteFilesResult.notAcceptable "Folder is empty", bucket))
  ∧ ((∃ o ∈ bucket, pyStartsWith o.key
          (ensureSlash (pyStr company.company_slug ++ "/" ++ req.loc_tag))
            = true) →
        (delete_files company bucket req).1 = DeleteFilesResult.ok) := by
  constructor
  · intro hall
    have hany : bucket.any (fun o => pyStartsWith o.key
        (ensureSlash (pyStr company.company_slug ++ "/" ++ req.loc_tag)))
          = false :=
      List.any_eq_false.mpr (fun o ho => by simp [hall o ho])
    simp [delete_files, is_s3_folder_empty, hany]
  · rintro ⟨o, ho, hsw⟩
    have hany : bucket.any (fun o => pyStartsWith o.key
        (ensureSlash (pyStr company.company_slug ++ "/" ++ req.loc_tag)))
          = true :=
      List.any_eq_true.mpr ⟨o, ho, hsw⟩
    simp [delete_files, is_s3_folder_empty, hany]

/-- Concrete run of `delete_files_empty_guard`: an empty folder is
refused with 406 and nothing changes; a folder holding one object is
deleted with 200. -/
theorem delete_files_empty_guard_witness :
    delete_files demoAcme [] { loc_tag := "docs" }
      = (DeleteFilesResult.notAcceptable "Folder is empty", [])
  ∧ (delete_files demoAcme [{ key := "acme/docs/a.txt", size := 7 }]
        { loc_tag := "docs" }).1 = DeleteFilesResult.ok :=
  ⟨(delete_files_empty_guard demoAcme [] { loc_tag := "docs" }).1
      (by simp),
   (delete_files_empty_guard demoAcme
      [{ key := "acme/docs/a.txt", size := 7 }] { loc_tag := "docs" }).2
      ⟨{ key := "acme/docs/a.txt", size := 7 }, by simp, by decide⟩⟩

/-- C10: a user inserted by the registration handler has
`is_active = False`, and the login query only matches active users, so
after any successful registration a login with that user's email is
answered 401 whatever password is submitted — in particular the
correct one. -/
theorem fresh_admin_cannot_login (users : List User) (req : UserCreate)
    (newId salt : String) (u : User) (users2 : List User)
    (hreg : register_admin users req newId salt
      = (RegisterAdminResult.created u, users2)) :
    ∀ pwd tok mins, login_for_access_token users2 u.email pwd tok mins
      = LoginResult.unauthorized := by
  intro pwd tok mins
  unfold register_admin at hreg
  split at hreg
  · exact absurd hreg (by simp)
  · rename_i hdup
    rw [Prod.mk.injEq, RegisterAdminResult.created.injEq] at hreg
    obtain ⟨hu, husers⟩ := hreg
    subst husers
    subst hu
    have hdupf : users.any
        (fun x => x.username == req.username || x.email == req.email) = false :=
      Bool.eq_false_iff.mpr hdup
    have hnodup := List.any_eq_false.mp hdupf
    have h1 : users.find? (fun x => x.email == req.email && x.is_active)
        = none := by
      rw [List.find?_eq_none]
      intro x hx hpx
      apply hnodup x hx
      have hmail : (x.email == req.email) = true := by
        cases hand : x.email == req.email with
        | true => rfl
        | false => simp [hand] at hpx
      simp [hmail]
    simp [login_for_access_token, List.find?_append, h1, List.find?]

/-- A user-registration request used in concrete evaluations. -/
def demoUserCreate : UserCreate :=
  { username := "adm", email := "adm@example.com", password := "pw" }

/-- The row `register_admin` stores for `demoUserCreate`. -/
def demoAdminUser : User :=
  { id := "id0"
    username := "adm"
    email := "adm@example.com"
    password_hash := hash_password "salt0" "pw"
    is_active := false }

/-- Concrete run of `fresh_admin_cannot_login`: right after
registering, logging in with the registered email and the correct
password is answered 401. -/
theorem fresh_admin_cannot_login_witness :
    login_for_access_token [demoAdminUser] "adm@example.com" "pw"
        (some "tok") 15 = LoginResult.unauthorized :=
  fresh_admin_cannot_login [] demoUserCreate "id0" "salt0" demoAdminUser
    [demoAdminUser] (by decide) "pw" (some "tok") 15
